import Mathlib

/-!
Shallow embedding of the `gpu_burn` wrapper repository (two Python CLI scripts):

* `gpu_burn_epilog_parser.py` — reads a JSON record produced by the runner,
  optionally echoes it (with double quotes escaped) and returns the record's
  `returncode` field coerced to an integer; `main` passes that value to
  `sys.exit`, so it becomes the process exit status.
* `gpu_burn_script.py` — validates the gpu_burn root directory, changes into
  it, runs the binary under a timeout of twice the requested duration,
  restores the working directory on every exit path, and prints a JSON record.

Python strings are modelled as `List Char`; machine-independent Python
integers as `Int`.  Calls into the operating system (`subprocess.run`,
`os.chdir`, the filesystem tests of `os.path`) are modelled by explicit
oracles / state passing.  Logging calls have no effect on any modelled
observable and are omitted.
-/

/-- Python exceptions that the two scripts can raise or propagate. -/
inductive PyExc where
  /-- `json.JSONDecodeError` escaping `json.loads` on malformed input. -/
  | jsonDecodeError (msg : List Char)
  /-- `KeyError` from subscripting a dict with an absent key. -/
  | keyError (key : List Char)
  /-- `TypeError`, e.g. `int(None)` or subscripting a non-dict with a string. -/
  | typeError
  /-- `ValueError`, e.g. `int("abc")`. -/
  | valueError
  /-- `FileNotFoundError(msg)` raised by `valid_gpu_burn_path`. -/
  | fileNotFoundError (msg : List Char)
  /-- `RuntimeError(msg)` raised by the `except` clause of `execute_gpu_burn`. -/
  | runtimeError (msg : List Char)
  deriving DecidableEq, Repr

/-- JSON values as produced by Python's `json.loads`: objects become dicts
(modelled as association lists, keys unique after parsing), numbers become
`int` or `float` (floats modelled as the rationals they denote). -/
inductive Json where
  | null
  | bool (b : Bool)
  | int (n : Int)
  | float (q : Rat)
  | str (s : List Char)
  | arr (elems : List Json)
  | obj (fields : List (List Char × Json))

/-- Modelled from CPython: `str.strip()` with no argument removes ASCII/Unicode
whitespace from both ends of the string. -/
def pyStrip (s : List Char) : List Char :=
  ((s.dropWhile Char.isWhitespace).reverse.dropWhile Char.isWhitespace).reverse

/-- Value of a list of decimal digit characters, most significant first. -/
def digitsToNat (ds : List Char) : Nat :=
  ds.foldl (fun acc c => 10 * acc + (c.toNat - '0'.toNat)) 0

/-- Modelled from CPython: the optional sign at the front of an integer
literal accepted by `int(str)`. -/
def pySign : List Char → Int × List Char
  | [] => (1, [])
  | c :: rest =>
      if c = '+' then (1, rest)
      else if c = '-' then (-1, rest)
      else (1, c :: rest)

/-- Modelled from CPython: `int(s)` for a string `s` — strips surrounding
whitespace, accepts an optional sign followed by a non-empty run of decimal
digits, and raises `ValueError` otherwise.  (Underscore digit separators and
non-ASCII digits, which CPython also accepts, are not used by this
repository and are not modelled.) -/
def pyIntOfString (s : List Char) : Except PyExc Int :=
  let t := pyStrip s
  let sg := pySign t
  if sg.2 ≠ [] ∧ sg.2.all Char.isDigit then
    .ok (sg.1 * (digitsToNat sg.2 : Int))
  else
    .error .valueError

/-- Modelled from CPython: `int(x)` for a float `x` truncates toward zero. -/
def pyTruncFloat (q : Rat) : Int :=
  q.num.tdiv (q.den : Int)

/-- Modelled from CPython: the builtin `int(x)` on a value decoded from JSON:
identity on ints, truncation on floats, digit parsing on strings, 0/1 on
bools; `TypeError` on `None`, lists and dicts. -/
def pyInt : Json → Except PyExc Int
  | .int n => .ok n
  | .float q => .ok (pyTruncFloat q)
  | .str s => pyIntOfString s
  | .bool b => .ok (if b then 1 else 0)
  | .null => .error .typeError
  | .arr _ => .error .typeError
  | .obj _ => .error .typeError

/-- Modelled from CPython: `value[key]` subscription with a string key, as in
`gpu_burn_output["returncode"]`: a dict lookup raising `KeyError` when the
key is absent, and `TypeError` when the value is not a dict. -/
def pyGetItem (v : Json) (key : List Char) : Except PyExc Json :=
  match v with
  | .obj fields =>
      match fields.lookup key with
      | some w => .ok w
      | none => .error (.keyError key)
  | _ => .error .typeError

/-- Hexadecimal digit for a value below 16, as used by `json.dumps` escapes. -/
def hexDigit (n : Nat) : Char :=
  if n < 10 then Char.ofNat ('0'.toNat + n) else Char.ofNat ('a'.toNat + n - 10)

/-- Modelled from CPython: the `\uXXXX` escape emitted by `json.dumps` with
`ensure_ascii=True` for control and non-ASCII characters. -/
def jsonUEscape (n : Nat) : List Char :=
  ['\\', 'u', hexDigit (n / 4096 % 16), hexDigit (n / 256 % 16),
   hexDigit (n / 16 % 16), hexDigit (n % 16)]

/-- Modelled from CPython: how `json.dumps` escapes one character inside a
JSON string literal. -/
def jsonEscapeChar (c : Char) : List Char :=
  if c = '"' then ['\\', '"']
  else if c = '\\' then ['\\', '\\']
  else if c = '\n' then ['\\', 'n']
  else if c = '\t' then ['\\', 't']
  else if c = '\r' then ['\\', 'r']
  else if c.toNat < 32 ∨ 127 ≤ c.toNat then jsonUEscape c.toNat
  else [c]

/-- Modelled from CPython: a JSON string literal as serialized by
`json.dumps` (surrounding double quotes, characters escaped). -/
def jsonQuote (s : List Char) : List Char :=
  '"' :: (s.flatMap jsonEscapeChar) ++ ['"']

/-- Modelled from CPython: `repr` of a float as used by `json.dumps`; only
floats with a finite decimal expansion occur in this repository, and of those
only integral ones are reached by any claim, rendered as `n.0`.  Non-integral
rationals get a fallback rendering (never produced by the scripts). -/
def pyFloatRepr (q : Rat) : List Char :=
  if q.den = 1 then (toString q.num).data ++ ['.', '0']
  else (toString q.num).data ++ ['e'] ++ (toString q.den).data

mutual

/-- Modelled from CPython: `json.dumps` with default options — item
separator a comma and a space, key separator a colon and a space,
`ensure_ascii=True`. -/
def jsonDumps : Json → List Char
  | .null => "null".data
  | .bool b => if b then "true".data else "false".data
  | .int n => (toString n).data
  | .float q => pyFloatRepr q
  | .str s => jsonQuote s
  | .arr elems => '[' :: jsonDumpsList elems ++ [']']
  | .obj fields => '\x7b' :: jsonDumpsFields fields ++ ['\x7d']

/-- Serialization of the elements of a JSON array, comma-and-space separated. -/
def jsonDumpsList : List Json → List Char
  | [] => []
  | [v] => jsonDumps v
  | v :: rest => jsonDumps v ++ [',', ' '] ++ jsonDumpsList rest

/-- Serialization of the fields of a JSON object, comma-and-space separated,
each as `"key": value`. -/
def jsonDumpsFields : List (List Char × Json) → List Char
  | [] => []
  | [(k, v)] => jsonQuote k ++ [':', ' '] ++ jsonDumps v
  | (k, v) :: rest => jsonQuote k ++ [':', ' '] ++ jsonDumps v ++ [',', ' '] ++ jsonDumpsFields rest

end

/-- Modelled from CPython: `s.replace('"', '\\"')` — every double-quote
character of `s` is replaced by a backslash followed by a double quote;
other characters are unchanged (the source line
`json.dumps(gpu_burn_output).replace('"', '\\"')`). -/
def pyReplaceQuote : List Char → List Char
  | [] => []
  | c :: rest =>
      if c = '"' then '\\' :: '"' :: pyReplaceQuote rest
      else c :: pyReplaceQuote rest

/-- The key extracted by the epilog parser. -/
def returncodeKey : List Char := "returncode".data

/-- The line printed by the epilog parser under `-o`: the source's
`print(json.dumps(gpu_burn_output).replace('"', '\\"'))`. -/
def echoedLine (gpu_burn_output : Json) : List Char :=
  pyReplaceQuote (jsonDumps gpu_burn_output)

/-- Embedding of `main_impl` of `gpu_burn_epilog_parser.py`.  Its input is
the result of `json.loads(path.read())` (an oracle for the file content:
either the decoded JSON value or the propagating decode error) together with
the `-o` (`--output`) flag.  It returns the pair of the integer `returncode`
extracted from the record and, when the flag is set, the line printed to
stdout (the record re-serialized with double quotes escaped); any exception
propagates as `.error`.  Argument parsing and logging configuration are not
modelled (they affect no claimed observable). -/
def main_impl (loads : Except PyExc Json) (output : Bool) :
    Except PyExc (Int × Option (List Char)) :=
  match loads with
  | .error e => .error e
  | .ok gpu_burn_output =>
      let echoed : Option (List Char) :=
        if output then some (echoedLine gpu_burn_output) else none
      match pyGetItem gpu_burn_output returncodeKey with
      | .error e => .error e
      | .ok v =>
          match pyInt v with
          | .error e => .error e
          | .ok returncode => .ok (returncode, echoed)

/-- Embedding of `main` of `gpu_burn_epilog_parser.py`: it calls
`sys.exit(main_impl(args))`, so the parser's process exit status is exactly
the integer returned by `main_impl` (when `main_impl` raises instead, the
exception propagates). -/
def parser_process_exit (loads : Except PyExc Json) (output : Bool) :
    Except PyExc Int :=
  (main_impl loads output).map Prod.fst

/-- Outcome of one `subprocess.run` call, decided by the operating system:
the child completed (with captured stdout, stderr and its exit status),
exceeded the timeout (`subprocess.TimeoutExpired`, carrying the exception's
message), or the launch raised some other exception that propagates. -/
inductive ProcOutcome where
  | completed (stdout stderr : List Char) (returncode : Int)
  | timedOut (excMsg : List Char)
  | raised (e : PyExc)

/-- The diagnostic message built by `run_shell_command` when the child
exceeds the timeout (the f-string
`f"Process exceeded time out threshold after running for more than {timeout_threshold_secs} seconds; got exception message: {e}"`). -/
def timeoutDiagMsg (timeout_threshold_secs : Int) (excMsg : List Char) : List Char :=
  "Process exceeded time out threshold after running for more than ".data
    ++ (toString timeout_threshold_secs).data
    ++ " seconds; got exception message: ".data
    ++ excMsg

/-- Embedding of `run_shell_command` of `gpu_burn_script.py`.  `runBehavior`
is what `subprocess.run` did on this call (an oracle for the OS).  On normal
completion the captured `(stdout, stderr, returncode)` triple is returned;
a `subprocess.TimeoutExpired` is caught and converted to the normal result
`("", diagnostic message, 0)`; any other exception propagates. -/
def run_shell_command (cmd : List (List Char))
    (timeout_threshold_secs : Int) (runBehavior : ProcOutcome) :
    Except PyExc (List Char × List Char × Int) :=
  match runBehavior with
  | .completed stdout stderr returncode => .ok (stdout, stderr, returncode)
  | .timedOut excMsg =>
      .ok ([], timeoutDiagMsg timeout_threshold_secs excMsg, 0)
  | .raised e => .error e

/-- A model of the filesystem visible to `os.path`: the set of existing
directories and the set of existing non-directory files, each named by an
absolute path. -/
structure FS where
  dirs : List (List Char)
  files : List (List Char)

/-- Modelled from CPython: `os.path.isdir(p)`. -/
def FS.isdir (fs : FS) (p : List Char) : Bool := fs.dirs.contains p

/-- Modelled from CPython: `os.path.exists(p)` — true for files and
directories alike. -/
def FS.pathExists (fs : FS) (p : List Char) : Bool :=
  fs.files.contains p || fs.dirs.contains p

/-- Modelled from CPython (posixpath): `os.path.join(a, b)` for a relative
second component — `b` alone when `a` is empty or `b` absolute, otherwise
`a` and `b` joined with a separator unless `a` already ends in one. -/
def pyJoin (a b : List Char) : List Char :=
  if b.head? = some '/' then b
  else if a = [] then b
  else if a.getLast? = some '/' then a ++ b
  else a ++ '/' :: b

/-- The error message of `valid_gpu_burn_path` when the folder is absent. -/
def folderMissingMsg (gpu_burn_path : List Char) : List Char :=
  "The `gpu_burn` folder does not exist: ".data ++ gpu_burn_path

/-- The error message of `valid_gpu_burn_path` when the binary is absent. -/
def binaryMissingMsg (gpu_burn_path : List Char) : List Char :=
  "The `gpu_burn` binary is not found at: ".data ++ pyJoin gpu_burn_path "gpu_burn".data

/-- The error message of `valid_gpu_burn_path` when `compare.ptx` is absent. -/
def compareMissingMsg (gpu_burn_path : List Char) : List Char :=
  "The `compare.ptx` file is not found at: ".data ++ pyJoin gpu_burn_path "compare.ptx".data

/-- Embedding of `valid_gpu_burn_path` of `gpu_burn_script.py`: pure
filesystem reads only — checks that the folder exists, then that the
`gpu_burn` binary exists inside it, then that `compare.ptx` exists inside
it, raising `FileNotFoundError` with an artifact-specific message at the
first failure, and returns the path unchanged on success. -/
def valid_gpu_burn_path (fs : FS) (gpu_burn_path : List Char) :
    Except PyExc (List Char) :=
  if ¬ fs.isdir gpu_burn_path then
    .error (.fileNotFoundError (folderMissingMsg gpu_burn_path))
  else if ¬ fs.pathExists (pyJoin gpu_burn_path "gpu_burn".data) then
    .error (.fileNotFoundError (binaryMissingMsg gpu_burn_path))
  else if ¬ fs.pathExists (pyJoin gpu_burn_path "compare.ptx".data) then
    .error (.fileNotFoundError (compareMissingMsg gpu_burn_path))
  else
    .ok gpu_burn_path

/-- Process-wide mutable state touched by the runner: the current working
directory (`os.getcwd` / `os.chdir`). -/
structure World where
  cwd : List Char

/-- The message wrapped into the `RuntimeError` raised by the `except`
clause of `execute_gpu_burn` (the f-string
`f"Failed to run gpu_burn binary; received error: {e}"`; the embedding
keeps the caught exception itself rather than its rendering). -/
def execFailWrap (e : PyExc) : PyExc :=
  .runtimeError ("Failed to run `gpu_burn` binary; received error: ".data
    ++ (reprStr e).data)

/-- Everything observable about one call of `execute_gpu_burn`: the value
returned or exception propagated, the final process working directory, the
working directory while the child ran, and the command and timeout actually
handed to `run_shell_command` (both also traced by the source's
`log.debug` call). -/
structure ExecTrace where
  result : Except PyExc (List Char × List Char × Int)
  finalCwd : List Char
  cwdDuringRun : List Char
  cmdUsed : List (List Char)
  timeoutUsed : Int

/-- Embedding of `execute_gpu_burn` of `gpu_burn_script.py`.  `os` is the
oracle saying what `subprocess.run` does for a given command and timeout.
The source stores `cwd = os.getcwd()`, does `os.chdir(gpu_burn_path)`,
builds `cmd = ["./gpu_burn", *gpu_burn_arguments, f"{time_secs}"]` and
`timeout_threshold_secs = 2 * time_secs`, calls `run_shell_command` inside
`try`, wraps any exception into a `RuntimeError` in `except`, and in
`finally` does `os.chdir(cwd)` — so the restoring `chdir` executes on the
normal path and on the raising path alike. -/
def execute_gpu_burn (os : List (List Char) → Int → ProcOutcome)
    (w : World) (gpu_burn_path : List Char)
    (gpu_burn_arguments : List (List Char)) (time_secs : Int) : ExecTrace :=
  let cwd := w.cwd
  let cmd := "./gpu_burn".data :: gpu_burn_arguments ++ [(toString time_secs).data]
  let timeout_threshold_secs := 2 * time_secs
  match run_shell_command cmd timeout_threshold_secs (os cmd timeout_threshold_secs) with
  | .ok triple =>
      { result := .ok triple, finalCwd := cwd, cwdDuringRun := gpu_burn_path,
        cmdUsed := cmd, timeoutUsed := timeout_threshold_secs }
  | .error e =>
      { result := .error (execFailWrap e), finalCwd := cwd,
        cwdDuringRun := gpu_burn_path, cmdUsed := cmd,
        timeoutUsed := timeout_threshold_secs }

/-- Default root directory (`GPU_BURN_ROOT` in the source). -/
def GPU_BURN_ROOT : List Char := "/usr/lib/gpu_burn".data

/-- Everything observable about one invocation of the runner's `main`: the
process exit status, the JSON record printed to stdout (when reached), and
whether a child process launch was attempted. -/
structure RunnerTrace where
  exitStatus : Int
  printed : Option Json
  spawned : Bool

/-- Embedding of `main` of `gpu_burn_script.py`.  Argparse first applies
`valid_gpu_burn_path` to the root directory (its `type=` callable), so a
validation failure aborts before any child process: the uncaught
`FileNotFoundError` makes the interpreter exit with status 1.  Otherwise
`execute_gpu_burn` runs; if it raises, the uncaught `RuntimeError` again
gives exit status 1; on success `main` prints the JSON record with keys
`gpu_burn_time`, `gpu_burn_arguments`, `stdout`, `stderr`, `returncode`,
returns `None`, and the interpreter exits with status 0. -/
def runner_main (fs : FS) (os : List (List Char) → Int → ProcOutcome)
    (w : World) (gpu_burn_arguments : List (List Char))
    (time_secs : Int) (gpu_burn_root : List Char) : RunnerTrace :=
  match valid_gpu_burn_path fs gpu_burn_root with
  | .error _ => { exitStatus := 1, printed := none, spawned := false }
  | .ok root =>
      let tr := execute_gpu_burn os w root gpu_burn_arguments time_secs
      match tr.result with
      | .error _ => { exitStatus := 1, printed := none, spawned := true }
      | .ok (stdout, stderr, returncode) =>
          { exitStatus := 0,
            printed := some (.obj
              [("gpu_burn_time".data, .int time_secs),
               ("gpu_burn_arguments".data, .arr (gpu_burn_arguments.map .str)),
               ("stdout".data, .str stdout),
               ("stderr".data, .str stderr),
               ("returncode".data, .int returncode)]),
            spawned := true }

/-! Helper lemmas about the CPython models. -/

/-- A decimal digit character is not a whitespace character. -/
theorem isWhitespace_eq_false_of_isDigit (c : Char) (h : c.isDigit = true) :
    c.isWhitespace = false := by
  by_contra hw
  rw [Bool.not_eq_false] at hw
  simp only [Char.isWhitespace, Bool.or_eq_true, decide_eq_true_eq] at hw
  rcases hw with ((h1 | h1) | h1) | h1 <;> (rw [h1] at h; exact absurd h (by decide))

/-- Dropping leading whitespace from an all-digit string is the identity. -/
theorem dropWhile_ws_of_digits (s : List Char) (h : s.all Char.isDigit = true) :
    s.dropWhile Char.isWhitespace = s := by
  cases s with
  | nil => rfl
  | cons c rest =>
      simp only [List.all_cons, Bool.and_eq_true] at h
      rw [List.dropWhile_cons, isWhitespace_eq_false_of_isDigit c h.1]
      simp

/-- Stripping whitespace from an all-digit string is the identity. -/
theorem pyStrip_of_digits (s : List Char) (h : s.all Char.isDigit = true) :
    pyStrip s = s := by
  have hrev : s.reverse.all Char.isDigit = true := by
    simpa [List.all_eq_true, List.mem_reverse] using List.all_eq_true.mp h
  unfold pyStrip
  rw [dropWhile_ws_of_digits s h, dropWhile_ws_of_digits s.reverse hrev,
    List.reverse_reverse]

/-- An all-digit string has no sign to consume. -/
theorem pySign_of_digits (s : List Char) (h : s.all Char.isDigit = true) :
    pySign s = (1, s) := by
  cases s with
  | nil => rfl
  | cons c rest =>
      simp only [List.all_cons, Bool.and_eq_true] at h
      have hplus : c ≠ '+' := by
        intro hEq; rw [hEq] at h; exact absurd h.1 (by decide)
      have hminus : c ≠ '-' := by
        intro hEq; rw [hEq] at h; exact absurd h.1 (by decide)
      simp [pySign, hplus, hminus]

/-- `int(s)` on a non-empty all-digit string returns its decimal value. -/
theorem pyIntOfString_digits (s : List Char) (hne : s ≠ [])
    (h : s.all Char.isDigit = true) :
    pyIntOfString s = .ok (digitsToNat s : Int) := by
  simp only [pyIntOfString, pyStrip_of_digits s h, pySign_of_digits s h]
  simp [hne, h]

/-- In the output of `pyReplaceQuote`, every double quote is immediately
preceded by a backslash. -/
theorem pyReplaceQuote_escaped (l : List Char) :
    ∀ i : Nat, (pyReplaceQuote l)[i]? = some '"' →
      ∃ j, i = j + 1 ∧ (pyReplaceQuote l)[j]? = some '\\' := by
  induction l with
  | nil => intro i hi; simp [pyReplaceQuote] at hi
  | cons c rest ih =>
      intro i hi
      by_cases hc : c = '"'
      · subst hc
        have hq : pyReplaceQuote ('"' :: rest) = '\\' :: '"' :: pyReplaceQuote rest := by
          simp [pyReplaceQuote]
        rw [hq] at hi ⊢
        cases i with
        | zero =>
            rw [List.getElem?_cons_zero] at hi
            exact absurd (Option.some.inj hi) (by decide)
        | succ k =>
            cases k with
            | zero => exact ⟨0, rfl, by rw [List.getElem?_cons_zero]⟩
            | succ k2 =>
                rw [List.getElem?_cons_succ, List.getElem?_cons_succ] at hi
                obtain ⟨j, hj1, hj2⟩ := ih k2 hi
                refine ⟨j + 2, by omega, ?_⟩
                rw [List.getElem?_cons_succ, List.getElem?_cons_succ]
                exact hj2
      · have hq : pyReplaceQuote (c :: rest) = c :: pyReplaceQuote rest := by
          simp [pyReplaceQuote, hc]
        rw [hq] at hi ⊢
        cases i with
        | zero =>
            rw [List.getElem?_cons_zero] at hi
            exact absurd (Option.some.inj hi) hc
        | succ k =>
            rw [List.getElem?_cons_succ] at hi
            obtain ⟨j, hj1, hj2⟩ := ih k hi
            refine ⟨j + 1, by omega, ?_⟩
            rw [List.getElem?_cons_succ]
            exact hj2

/-! Claim theorems. -/

/-- C1: for every well-formed input record whose `returncode` field holds an
integer `n`, the parser's process exit status — the value `main` passes to
`sys.exit`, i.e. the value returned by `main_impl` — equals `n` exactly,
with no range restriction imposed by the parser itself. -/
theorem parser_exit_equals_returncode
    (fields : List (List Char × Json)) (n : Int) (output : Bool)
    (h : fields.lookup returncodeKey = some (.int n)) :
    parser_process_exit (.ok (.obj fields)) output = .ok n := by
  simp [parser_process_exit, main_impl, pyGetItem, h, pyInt, Except.map]

/-- Witness for C1 at the records of the claim: `returncode` 0, 1 and 124
give exit status 0, 1 and 124 (and 300, outside the usual platform range,
passes through untouched as well). -/
theorem parser_exit_equals_returncode_witness :
    parser_process_exit (.ok (.obj [(returncodeKey, .int 0)])) false = .ok 0 ∧
    parser_process_exit (.ok (.obj [(returncodeKey, .int 1)])) false = .ok 1 ∧
    parser_process_exit (.ok (.obj [(returncodeKey, .int 124)])) true = .ok 124 ∧
    parser_process_exit (.ok (.obj [(returncodeKey, .int 300)])) false = .ok 300 :=
  ⟨parser_exit_equals_returncode _ 0 false rfl,
   parser_exit_equals_returncode _ 1 false rfl,
   parser_exit_equals_returncode _ 124 true rfl,
   parser_exit_equals_returncode _ 300 false rfl⟩

/-- C2: for every command and timeout bound, a child that exceeds the
timeout makes `run_shell_command` return the triple (empty stdout, non-empty
synthetic diagnostic message, exit code 0) as a normal non-exceptional
result — it neither raises nor returns the child's own exit status. -/
theorem run_shell_command_timeout_recovered
    (cmd : List (List Char)) (timeout_threshold_secs : Int) (excMsg : List Char) :
    run_shell_command cmd timeout_threshold_secs (.timedOut excMsg)
      = .ok ([], timeoutDiagMsg timeout_threshold_secs excMsg, 0) ∧
    timeoutDiagMsg timeout_threshold_secs excMsg ≠ [] := by
  refine ⟨rfl, ?_⟩
  intro hnil
  have hmem : 'P' ∈ timeoutDiagMsg timeout_threshold_secs excMsg := by
    unfold timeoutDiagMsg
    refine List.mem_append_left _ (List.mem_append_left _ (List.mem_append_left _ ?_))
    decide
  rw [hnil] at hmem
  simp at hmem

/-- C3: `execute_gpu_burn` restores the process-wide current working
directory to its pre-call value on every exit path — the oracle `os` ranges
over child success, child failure, timeout and a raising launch — while the
child itself ran with the working directory set to `gpu_burn_path`. -/
theorem execute_gpu_burn_restores_cwd
    (os : List (List Char) → Int → ProcOutcome) (w : World)
    (gpu_burn_path : List Char) (gpu_burn_arguments : List (List Char))
    (time_secs : Int) :
    (execute_gpu_burn os w gpu_burn_path gpu_burn_arguments time_secs).finalCwd
      = w.cwd ∧
    (execute_gpu_burn os w gpu_burn_path gpu_burn_arguments time_secs).cwdDuringRun
      = gpu_burn_path := by
  simp only [execute_gpu_burn, run_shell_command]
  rcases hos : os ("./gpu_burn".data :: gpu_burn_arguments ++ [(toString time_secs).data])
      (2 * time_secs) with _ | _ | _ <;> simp [hos]

/-- C5: `execute_gpu_burn` hands `run_shell_command` exactly the command
`["./gpu_burn"] ++ arguments ++ [duration]` — the duration rendered as a
single token appended last — with a timeout bound of exactly twice the
duration, for every oracle, argument list and duration. -/
theorem execute_gpu_burn_cmd_and_timeout
    (os : List (List Char) → Int → ProcOutcome) (w : World)
    (gpu_burn_path : List Char) (gpu_burn_arguments : List (List Char))
    (time_secs : Int) :
    (execute_gpu_burn os w gpu_burn_path gpu_burn_arguments time_secs).cmdUsed
      = "./gpu_burn".data :: (gpu_burn_arguments ++ [(toString time_secs).data]) ∧
    (execute_gpu_burn os w gpu_burn_path gpu_burn_arguments time_secs).timeoutUsed
      = 2 * time_secs := by
  simp only [execute_gpu_burn, run_shell_command]
  rcases hos : os ("./gpu_burn".data :: gpu_burn_arguments ++ [(toString time_secs).data])
      (2 * time_secs) with _ | _ | _ <;> simp [hos]

/-- C7: toggling the `-o` flag never changes the parser's exit status (nor
which exception propagates): for every input, `main_impl` with the flag set
and unset yields the same integer result, the flag changing only the echoed
line. -/
theorem output_flag_preserves_exit (loads : Except PyExc Json) :
    parser_process_exit loads true = parser_process_exit loads false := by
  unfold parser_process_exit main_impl
  cases loads with
  | error e => rfl
  | ok v =>
      cases hg : pyGetItem v returncodeKey with
      | error e => simp [hg]
      | ok w =>
          cases hi : pyInt w with
          | error e => simp [hg, hi]
          | ok rc => simp [hg, hi, Except.map]

/-- C8: the line echoed by the parser under `-o` contains no unescaped
double quote: every double-quote character of the printed line is
immediately preceded by a backslash, for every input record. -/
theorem echoed_line_quotes_escaped (record : Json) (i : Nat)
    (h : (echoedLine record)[i]? = some '"') :
    ∃ j, i = j + 1 ∧ (echoedLine record)[j]? = some '\\' := by
  unfold echoedLine at h ⊢
  exact pyReplaceQuote_escaped (jsonDumps record) i h

/-- Witness for C8: the record `"b"` echoes as `\"b\"`, whose double quote
at position 1 is preceded by a backslash at position 0. -/
theorem echoed_line_quotes_escaped_witness :
    (echoedLine (Json.str ['b']))[1]? = some '"' ∧
    ∃ j, 1 = j + 1 ∧ (echoedLine (Json.str ['b']))[j]? = some '\\' := by
  have hline : echoedLine (Json.str ['b']) = ['\\', '"', 'b', '\\', '"'] := by
    simp [echoedLine, jsonDumps, jsonQuote, jsonEscapeChar, pyReplaceQuote]
  refine ⟨by rw [hline]; rfl, echoed_line_quotes_escaped (Json.str ['b']) 1 (by rw [hline]; rfl)⟩

/-- C6: `main_impl` propagates the decode error when the input is not valid
JSON, raises a `KeyError` when the decoded object lacks the `returncode`
field, and does not raise on a well-formed record whose `returncode` value
is integer-coercible. -/
theorem main_impl_failure_modes :
    (∀ (e : PyExc) (output : Bool), main_impl (.error e) output = .error e) ∧
    (∀ (fields : List (List Char × Json)) (output : Bool),
        fields.lookup returncodeKey = none →
        main_impl (.ok (.obj fields)) output = .error (.keyError returncodeKey)) ∧
    (∀ (v rv : Json) (n : Int) (output : Bool),
        pyGetItem v returncodeKey = .ok rv → pyInt rv = .ok n →
        main_impl (.ok v) output
          = .ok (n, if output then some (echoedLine v) else none)) := by
  refine ⟨fun e output => rfl, fun fields output h => ?_, fun v rv n output hg hi => ?_⟩
  · simp [main_impl, pyGetItem, h]
  · simp [main_impl, hg, hi]

/-- Witness for C6: a propagating decode error, a record without the field,
and a well-formed record with `returncode` 7. -/
theorem main_impl_failure_modes_witness :
    main_impl (.error (.jsonDecodeError [])) false = .error (.jsonDecodeError []) ∧
    main_impl (.ok (.obj [])) false = .error (.keyError returncodeKey) ∧
    main_impl (.ok (.obj [(returncodeKey, .int 7)])) false = .ok (7, none) :=
  ⟨main_impl_failure_modes.1 (.jsonDecodeError []) false,
   main_impl_failure_modes.2.1 [] false rfl,
   main_impl_failure_modes.2.2 (.obj [(returncodeKey, .int 7)]) (.int 7) 7 false rfl rfl⟩

/-- C10: the parser accepts non-integer `returncode` values: a string of
decimal digits or a float in the field is coerced by `int(...)` — the digit
string to its decimal value, the float by truncation — rather than
failing. -/
theorem returncode_coercion_nonint :
    (∀ (fields : List (List Char × Json)) (s : List Char) (output : Bool),
        fields.lookup returncodeKey = some (.str s) → s ≠ [] →
        s.all Char.isDigit = true →
        main_impl (.ok (.obj fields)) output
          = .ok ((digitsToNat s : Int),
              if output then some (echoedLine (.obj fields)) else none)) ∧
    (∀ (fields : List (List Char × Json)) (q : Rat) (output : Bool),
        fields.lookup returncodeKey = some (.float q) →
        main_impl (.ok (.obj fields)) output
          = .ok (pyTruncFloat q,
              if output then some (echoedLine (.obj fields)) else none)) := by
  constructor
  · intro fields s output hl hne hd
    simp [main_impl, pyGetItem, hl, pyInt, pyIntOfString_digits s hne hd]
  · intro fields q output hl
    simp [main_impl, pyGetItem, hl, pyInt]

/-- Witness for C10: `returncode` `"124"` and `returncode` `124.0` both
give the integer result 124. -/
theorem returncode_coercion_nonint_witness :
    main_impl (.ok (.obj [(returncodeKey, .str ['1', '2', '4'])])) false
      = .ok (124, none) ∧
    main_impl (.ok (.obj [(returncodeKey, .float 124)])) false
      = .ok (124, none) := by
  constructor
  · have h := returncode_coercion_nonint.1 [(returncodeKey, .str ['1', '2', '4'])]
      ['1', '2', '4'] false rfl (by decide) (by decide)
    simpa [digitsToNat] using h
  · have h := returncode_coercion_nonint.2 [(returncodeKey, .float 124)] 124 false rfl
    simpa [pyTruncFloat] using h

/-- Two strings with fixed prefixes that differ at a common index are
distinct, whatever follows the prefixes. -/
theorem append_ne_of_prefix_diff (c1 c2 p q : List Char) (i : Nat)
    (h1 : i < c1.length) (h2 : i < c2.length) (hne : c1[i]? ≠ c2[i]?) :
    c1 ++ p ≠ c2 ++ q := by
  intro h
  have hi := congrArg (fun l => l[i]?) h
  simp only at hi
  rw [List.getElem?_append, if_pos h1, List.getElem?_append, if_pos h2] at hi
  exact hne hi

/-- C4: `valid_gpu_burn_path` fails fast with a `FileNotFoundError` whose
message is specific to the first missing artifact — folder, binary, or
companion `compare.ptx` file — the three messages are pairwise distinct for
every path, and when validation fails the runner spawns no child process. -/
theorem valid_gpu_burn_path_fail_fast :
    (∀ (fs : FS) (p : List Char), fs.isdir p = false →
        valid_gpu_burn_path fs p
          = .error (.fileNotFoundError (folderMissingMsg p))) ∧
    (∀ (fs : FS) (p : List Char), fs.isdir p = true →
        fs.pathExists (pyJoin p "gpu_burn".data) = false →
        valid_gpu_burn_path fs p
          = .error (.fileNotFoundError (binaryMissingMsg p))) ∧
    (∀ (fs : FS) (p : List Char), fs.isdir p = true →
        fs.pathExists (pyJoin p "gpu_burn".data) = true →
        fs.pathExists (pyJoin p "compare.ptx".data) = false →
        valid_gpu_burn_path fs p
          = .error (.fileNotFoundError (compareMissingMsg p))) ∧
    (∀ p : List Char,
        folderMissingMsg p ≠ binaryMissingMsg p ∧
        folderMissingMsg p ≠ compareMissingMsg p ∧
        binaryMissingMsg p ≠ compareMissingMsg p) ∧
    (∀ (fs : FS) (os : List (List Char) → Int → ProcOutcome) (w : World)
        (args : List (List Char)) (t : Int) (root : List Char) (e : PyExc),
        valid_gpu_burn_path fs root = .error e →
        (runner_main fs os w args t root).spawned = false) := by
  refine ⟨?_, ?_, ?_, ?_, ?_⟩
  · intro fs p h
    simp [valid_gpu_burn_path, h]
  · intro fs p h1 h2
    simp [valid_gpu_burn_path, h1, h2]
  · intro fs p h1 h2 h3
    simp [valid_gpu_burn_path, h1, h2, h3]
  · intro p
    refine ⟨?_, ?_, ?_⟩
    · exact append_ne_of_prefix_diff _ _ _ _ 15 (by decide) (by decide) (by decide)
    · exact append_ne_of_prefix_diff _ _ _ _ 5 (by decide) (by decide) (by decide)
    · exact append_ne_of_prefix_diff _ _ _ _ 5 (by decide) (by decide) (by decide)
  · intro fs os w args t root e hv
    simp [runner_main, hv]

/-- Witness for C4 under the default root: an empty filesystem gives the
folder error and no spawn, a filesystem with only the folder gives the
binary error, one with folder and binary gives the `compare.ptx` error, and
the three messages are pairwise distinct. -/
theorem valid_gpu_burn_path_fail_fast_witness :
    valid_gpu_burn_path ⟨[], []⟩ GPU_BURN_ROOT
      = .error (.fileNotFoundError (folderMissingMsg GPU_BURN_ROOT)) ∧
    valid_gpu_burn_path ⟨[GPU_BURN_ROOT], []⟩ GPU_BURN_ROOT
      = .error (.fileNotFoundError (binaryMissingMsg GPU_BURN_ROOT)) ∧
    valid_gpu_burn_path ⟨[GPU_BURN_ROOT], [pyJoin GPU_BURN_ROOT "gpu_burn".data]⟩
        GPU_BURN_ROOT
      = .error (.fileNotFoundError (compareMissingMsg GPU_BURN_ROOT)) ∧
    (folderMissingMsg GPU_BURN_ROOT ≠ binaryMissingMsg GPU_BURN_ROOT ∧
     folderMissingMsg GPU_BURN_ROOT ≠ compareMissingMsg GPU_BURN_ROOT ∧
     binaryMissingMsg GPU_BURN_ROOT ≠ compareMissingMsg GPU_BURN_ROOT) ∧
    (runner_main ⟨[], []⟩ (fun _ _ => .completed [] [] 0) ⟨['/']⟩ [] 60
        GPU_BURN_ROOT).spawned = false :=
  ⟨valid_gpu_burn_path_fail_fast.1 ⟨[], []⟩ GPU_BURN_ROOT (by decide),
   valid_gpu_burn_path_fail_fast.2.1 ⟨[GPU_BURN_ROOT], []⟩ GPU_BURN_ROOT
     (by decide) (by decide),
   valid_gpu_burn_path_fail_fast.2.2.1
     ⟨[GPU_BURN_ROOT], [pyJoin GPU_BURN_ROOT "gpu_burn".data]⟩ GPU_BURN_ROOT
     (by decide) (by decide) (by decide),
   valid_gpu_burn_path_fail_fast.2.2.2.1 GPU_BURN_ROOT,
   valid_gpu_burn_path_fail_fast.2.2.2.2 ⟨[], []⟩ (fun _ _ => .completed [] [] 0)
     ⟨['/']⟩ [] 60 GPU_BURN_ROOT (.fileNotFoundError (folderMissingMsg GPU_BURN_ROOT))
     (valid_gpu_burn_path_fail_fast.1 ⟨[], []⟩ GPU_BURN_ROOT (by decide))⟩

/-- C9 counterexample: the runner's exit status is not always 0 — invoked
with the default root on a filesystem where that directory does not exist,
the uncaught `FileNotFoundError` terminates the process with status 1. -/
theorem runner_exit_nonzero_on_invalid_root :
    (runner_main ⟨[], []⟩ (fun _ _ => .completed [] [] 0) ⟨['/']⟩ [] 60
        GPU_BURN_ROOT).exitStatus ≠ 0 := by
  decide

/-- C9 (amended): whenever validation succeeds and the child launch does not
raise, the runner's own exit status is 0 regardless of the child's exit
status, which appears only as the `returncode` field of the printed JSON
record. -/
theorem runner_exit_zero_when_run_completes
    (fs : FS) (os : List (List Char) → Int → ProcOutcome) (w : World)
    (args : List (List Char)) (t : Int) (root : List Char)
    (out err : List Char) (rc : Int)
    (hv : valid_gpu_burn_path fs root = .ok root)
    (hr : os ("./gpu_burn".data :: args ++ [(toString t).data]) (2 * t)
        = .completed out err rc) :
    (runner_main fs os w args t root).exitStatus = 0 ∧
    (runner_main fs os w args t root).printed
      = some (.obj
          [("gpu_burn_time".data, .int t),
           ("gpu_burn_arguments".data, .arr (args.map .str)),
           ("stdout".data, .str out),
           ("stderr".data, .str err),
           ("returncode".data, .int rc)]) := by
  simp only [runner_main, hv]
  simp only [execute_gpu_burn, run_shell_command, hr]
  simp

/-- Witness for C9 (amended): on a filesystem holding the three artifacts,
a child that exits with status 77 leaves the runner exiting 0 and 77 only
inside the printed record. -/
theorem runner_exit_zero_when_run_completes_witness :
    (runner_main ⟨[GPU_BURN_ROOT], [pyJoin GPU_BURN_ROOT "gpu_burn".data,
        pyJoin GPU_BURN_ROOT "compare.ptx".data]⟩
      (fun _ _ => .completed ['o'] ['e'] 77) ⟨['/']⟩ [] 60
      GPU_BURN_ROOT).exitStatus = 0 ∧
    (runner_main ⟨[GPU_BURN_ROOT], [pyJoin GPU_BURN_ROOT "gpu_burn".data,
        pyJoin GPU_BURN_ROOT "compare.ptx".data]⟩
      (fun _ _ => .completed ['o'] ['e'] 77) ⟨['/']⟩ [] 60
      GPU_BURN_ROOT).printed
      = some (.obj
          [("gpu_burn_time".data, .int 60),
           ("gpu_burn_arguments".data, .arr []),
           ("stdout".data, .str ['o']),
           ("stderr".data, .str ['e']),
           ("returncode".data, .int 77)]) :=
  runner_exit_zero_when_run_completes
    ⟨[GPU_BURN_ROOT], [pyJoin GPU_BURN_ROOT "gpu_burn".data,
        pyJoin GPU_BURN_ROOT "compare.ptx".data]⟩
    (fun _ _ => .completed ['o'] ['e'] 77) ⟨['/']⟩ [] 60 GPU_BURN_ROOT
    ['o'] ['e'] 77 rfl rfl
